import Mathlib

/-!
Verification of the feature-engineering engine of the Spec-Sailor repository.

The Python sources are shallowly embedded: pandas DataFrames become lists of
records, timestamps become integers (seconds since the Unix epoch), monetary
and ratio values become rationals, and the pandas/numpy library calls are
translated to the corresponding list operations.  Every definition follows the
corresponding source function statement by statement; source file and line
references are given in the doc comments.
-/

/-! ## Time helpers

Timestamps are seconds since 1970-01-01T00:00:00.  A Python `datetime.date`
becomes the day number since the epoch. -/

/-- Number of seconds in a day. -/
def secondsPerDay : Int := 86400

/-- Day number of a timestamp, i.e. the result of Python's `.date()` /
pandas `.dt.date` on a timestamp. -/
def dateOf (t : Int) : Int := t.fdiv secondsPerDay

/-- Result of `(a - b).days` on Python datetimes: the floor of the difference
measured in days (`timedelta.days` floors). -/
def diffDays (a b : Int) : Int := (a - b).fdiv secondsPerDay

/-- Result of pandas `.dt.dayofweek` (Monday = 0).  1970-01-01 was a Thursday,
hence the offset 3. -/
def dayOfWeek (t : Int) : Int := (dateOf t + 3).emod 7

/-! ## Event data model

Embeds the event table of the batch pipeline (columns `user_id`,
`event_timestamp`, `event_type`, `session_duration_seconds`,
`content_category`; see src/src/data/data_generator.py lines 196-202).
`hasSignupDateCol` records whether the DataFrame happens to carry a
`signup_date` column, which `calculate_engagement_features` tests
(src/src/features/engagement_features.py line 114). -/

/-- One row of the batch event table. -/
structure Event where
  user_id : String
  event_timestamp : Int
  event_type : String
  session_duration_seconds : Rat
  content_category : Option String
deriving Repr, DecidableEq

/-- The batch event DataFrame: its rows plus the presence of the optional
signup_date column (tested by name in the engagement calculator). -/
structure EventsTable where
  rows : List Event
  hasSignupDateCol : Bool
deriving Repr, DecidableEq

/-- One row of the user-profile table (src/src/features/feature_engineering.py
line 133 selects these columns). -/
structure Profile where
  user_id : String
  signup_date : Int
  subscription_type : String
  location : String
  is_churned : Bool
deriving Repr, DecidableEq

/-! ## List helpers standing in for pandas reductions -/

/-- Maximum of a list with a default for the empty list; stands in for pandas
Series.max on a nonempty column. -/
def listMaxD (l : List Int) (dflt : Int) : Int :=
  match l with
  | [] => dflt
  | x :: xs => xs.foldl max x

/-- Minimum of a list with a default for the empty list; stands in for pandas
Series.min on a nonempty column. -/
def listMinD (l : List Int) (dflt : Int) : Int :=
  match l with
  | [] => dflt
  | x :: xs => xs.foldl min x

/-- Sum of a list of rationals (pandas Series.sum). -/
def sumRat (l : List Rat) : Rat := l.foldl (· + ·) 0

/-- Distinct values of a column in first-seen order (pandas Series.unique). -/
def uniqueFirst (l : List String) : List String :=
  l.foldl (fun acc x => if x ∈ acc then acc else acc ++ [x]) []

/-! ## Engagement calculator

Embeds calculate_engagement_features
(src/src/features/engagement_features.py lines 12-125). -/

/-- The ten engagement features. -/
structure EngagementFeatures where
  days_since_last_session : Int
  session_frequency_7d : Nat
  session_frequency_30d : Nat
  avg_session_duration : Rat
  total_sessions : Nat
  streak_current : Nat
  streak_longest : Nat
  days_since_signup : Int
  sessions_per_week : Rat
  weekend_activity_ratio : Rat
deriving Repr, DecidableEq

/-- Default feature values (engagement_features.py lines 35-46). -/
def engagementDefaults : EngagementFeatures :=
  { days_since_last_session := 180
    session_frequency_7d := 0
    session_frequency_30d := 0
    avg_session_duration := 0
    total_sessions := 0
    streak_current := 0
    streak_longest := 0
    days_since_signup := 0
    sessions_per_week := 0
    weekend_activity_ratio := 0 }

/-- Events of one user at or before the as-of date
(engagement_features.py lines 29-32; the identical filter reappears in
islamic_calendar_features.py lines 67-70). -/
def userEventsAsOf (df : EventsTable) (uid : String) (asOf : Int) : List Event :=
  df.rows.filter fun e => e.user_id == uid && decide (e.event_timestamp ≤ asOf)

/-- Restriction to app_open events (engagement_features.py line 52). -/
def sessionEvents (l : List Event) : List Event :=
  l.filter fun e => e.event_type == "app_open"

/-- Sorted list of the distinct session dates
(engagement_features.py line 85: sorted unique dates). -/
def uniqueSortedDates (l : List Event) : List Int :=
  List.insertionSort (· ≤ ·) ((l.map fun e => dateOf e.event_timestamp).dedup)

/-- Longest-streak loop state: previous date, current run length, best run so
far (engagement_features.py lines 93-99; the final max of line 99 is the base
case). -/
def longestStreakAux : Int → Nat → Nat → List Int → Nat
  | _, temp, longest, [] => max longest temp
  | prev, temp, longest, d :: ds =>
    if d - prev = 1 then longestStreakAux d (temp + 1) longest ds
    else longestStreakAux d 1 (max longest temp) ds

/-- Longest run of consecutive calendar dates in the sorted unique date list
(engagement_features.py lines 88-99; the loop starts with temp = 1,
longest = 0). -/
def longestStreak : List Int → Nat
  | [] => 0
  | d :: ds => longestStreakAux d 1 0 ds

/-- The while loop of engagement_features.py lines 102-105, stepping back one
day at a time while the date is among the unique dates.  The fuel bounds the
iteration count: each successful membership test consumes a distinct element
of the (duplicate-free) date list, so the Python loop performs at most
`dates.length` increments and the two definitions agree. -/
def currentStreakAux (dates : List Int) : Nat → Int → Nat
  | 0, _ => 0
  | fuel + 1, d => if d ∈ dates then currentStreakAux dates fuel (d - 1) + 1 else 0

/-- Current streak counted backwards from the as-of date
(engagement_features.py lines 101-105). -/
def currentStreak (dates : List Int) (asOfDay : Int) : Nat :=
  currentStreakAux dates dates.length asOfDay

/-- Length of the initial run of consecutive dates extending a previous date
(an auxiliary notion used to bound the streak computations). -/
def leadRun : Int → List Int → Nat
  | _, [] => 0
  | prev, d :: ds => if d - prev = 1 then leadRun d ds + 1 else 0

/-- Per-day total session durations: the values of
groupby('date')['session_duration_seconds'].sum()
(engagement_features.py lines 75-76).  Only the mean of this list is used, so
the group order is irrelevant. -/
def dailyDurations (l : List Event) : List Rat :=
  ((l.map fun e => dateOf e.event_timestamp).dedup).map fun d =>
    sumRat ((l.filter fun e => decide (dateOf e.event_timestamp = d)).map
      fun e => e.session_duration_seconds)

/-- Embedding of calculate_engagement_features
(src/src/features/engagement_features.py lines 12-125). -/
def calculate_engagement_features (df : EventsTable) (uid : String) (asOf : Int) :
    EngagementFeatures :=
  let user_events := userEventsAsOf df uid asOf
  if user_events.isEmpty then engagementDefaults
  else
    let sessions := sessionEvents user_events
    if sessions.isEmpty then engagementDefaults
    else
      let last_session := listMaxD (sessions.map (·.event_timestamp)) 0
      let seven_days_ago := asOf - 7 * secondsPerDay
      let thirty_days_ago := asOf - 30 * secondsPerDay
      let daily := dailyDurations user_events
      let unique_dates := uniqueSortedDates sessions
      let streaks :=
        if unique_dates.length > 0 then
          (currentStreak unique_dates (dateOf asOf), longestStreak unique_dates)
        else (0, 0)
      let total_sessions := sessions.length
      let first_event := listMinD (user_events.map (·.event_timestamp)) 0
      let days_active := diffDays asOf first_event + 1
      let weeks_active : Rat := max 1 ((days_active : Rat) / 7)
      let weekend_count :=
        (sessions.filter fun e =>
          decide (dayOfWeek e.event_timestamp = 5) || decide (dayOfWeek e.event_timestamp = 6)).length
      { days_since_last_session := diffDays asOf last_session
        session_frequency_7d :=
          (sessions.filter fun e => decide (seven_days_ago ≤ e.event_timestamp)).length
        session_frequency_30d :=
          (sessions.filter fun e => decide (thirty_days_ago ≤ e.event_timestamp)).length
        avg_session_duration :=
          if daily.length > 0 then sumRat daily / (daily.length : Rat) / 60 else 0
        total_sessions := total_sessions
        streak_current := streaks.1
        streak_longest := streaks.2
        days_since_signup := 0
        sessions_per_week :=
          if df.hasSignupDateCol && decide (0 < user_events.length) then
            (total_sessions : Rat) / weeks_active
          else 0
        weekend_activity_ratio :=
          if sessions.length > 0 then (weekend_count : Rat) / (sessions.length : Rat) else 0 }

/-! ## Islamic-calendar calculator

Embeds src/src/features/islamic_calendar_features.py. -/

/-- Constant datetime(2024, 3, 11) (islamic_calendar_features.py line 13);
day 19793 since the epoch. -/
def RAMADAN_START : Int := 19793 * secondsPerDay

/-- Constant datetime(2024, 4, 9) (line 14); day 19822. -/
def RAMADAN_END : Int := 19822 * secondsPerDay

/-- Constant datetime(2024, 3, 30) (line 15); day 19812. -/
def LAST_10_NIGHTS_START : Int := 19812 * secondsPerDay

/-- Constant datetime(2024, 4, 10) (line 16); day 19823. -/
def EID_START : Int := 19823 * secondsPerDay

/-- Constant datetime(2024, 4, 12) (line 17); day 19825. -/
def EID_END : Int := 19825 * secondsPerDay

/-- Constant datetime(2024, 7, 7) (line 18); day 19911. -/
def MUHARRAM_START : Int := 19911 * secondsPerDay

/-- Constant datetime(2024, 8, 6) (line 19); day 19941. -/
def MUHARRAM_END : Int := 19941 * secondsPerDay

/-- Prayer times in hours from midnight (line 22). -/
def PRAYER_TIMES : List Rat := [11 / 2, 25 / 2, 31 / 2, 37 / 2, 20]

/-- Predicate is_during_ramadan (lines 25-27). -/
def is_during_ramadan (t : Int) : Bool :=
  decide (RAMADAN_START ≤ t) && decide (t ≤ RAMADAN_END)

/-- Predicate is_friday (lines 35-37): Python weekday() = 4. -/
def is_friday (t : Int) : Bool := decide (dayOfWeek t = 4)

/-- Predicate is_prayer_time (lines 40-45) with the default window of 1 hour. -/
def is_prayer_time (hour : Rat) : Bool :=
  PRAYER_TIMES.any fun pt => decide (|hour - pt| ≤ 1)

/-- Fractional hour of a timestamp, .dt.hour + .dt.minute / 60.0
(islamic_calendar_features.py lines 176-177). -/
def hourOf (t : Int) : Rat :=
  (((t.emod 86400).fdiv 3600 : Int) : Rat) + (((t.emod 3600).fdiv 60 : Int) : Rat) / 60

/-- The eight Islamic-calendar features. -/
structure IslamicFeatures where
  ramadan_engagement_ratio : Rat
  is_ramadan_convert : Nat
  days_since_ramadan : Int
  last_10_nights_sessions : Nat
  jummah_participation_rate : Rat
  prayer_time_interaction_rate : Rat
  eid_participation : Nat
  muharram_participation : Nat
deriving Repr, DecidableEq

/-- Initial feature values (islamic_calendar_features.py lines 78-87). -/
def islamicDefaults : IslamicFeatures :=
  { ramadan_engagement_ratio := 0
    is_ramadan_convert := 0
    days_since_ramadan := 0
    last_10_nights_sessions := 0
    jummah_participation_rate := 0
    prayer_time_interaction_rate := 0
    eid_participation := 0
    muharram_participation := 0 }

/-- The profile row of a user: first matching row if any
(islamic_calendar_features.py lines 73-75). -/
def userProfile (profiles : List Profile) (uid : String) : Option Profile :=
  (profiles.filter fun p => p.user_id == uid).head?

/-- The is_ramadan_convert computation shared by both branches
(islamic_calendar_features.py lines 91-93 and 144-146). -/
def ramadanConvertOf (profile : Option Profile) : Nat :=
  match profile with
  | some p => if is_during_ramadan p.signup_date then 1 else 0
  | none => 0

/-- Embedding of calculate_islamic_features
(src/src/features/islamic_calendar_features.py lines 48-204). -/
def calculate_islamic_features (events : EventsTable) (profiles : List Profile)
    (uid : String) (asOf : Int) : IslamicFeatures :=
  let user_events := userEventsAsOf events uid asOf
  let user_profile := userProfile profiles uid
  if user_events.isEmpty then
    { islamicDefaults with
        is_ramadan_convert := ramadanConvertOf user_profile
        days_since_ramadan := diffDays asOf RAMADAN_END }
  else
    let sessions := sessionEvents user_events
    if sessions.isEmpty then islamicDefaults
    else
      let ramadan_count :=
        (sessions.filter fun e =>
          decide (RAMADAN_START ≤ e.event_timestamp) &&
          decide (e.event_timestamp ≤ RAMADAN_END)).length
      let non_ramadan_count :=
        (sessions.filter fun e =>
          decide (e.event_timestamp < RAMADAN_START) ||
          decide (RAMADAN_END < e.event_timestamp)).length
      let ratio : Rat :=
        if non_ramadan_count > 0 then
          let ramadan_days : Int := diffDays RAMADAN_END RAMADAN_START + 1
          let ramadan_rate : Rat :=
            if ramadan_count > 0 then (ramadan_count : Rat) / (ramadan_days : Rat) else 0
          let first_event := listMinD (sessions.map (·.event_timestamp)) 0
          let last_event := min (listMaxD (sessions.map (·.event_timestamp)) 0) asOf
          let total_days := diffDays last_event first_event + 1
          let non_ramadan_days := total_days - min ramadan_days total_days
          if non_ramadan_days > 0 then
            let non_ramadan_rate : Rat := (non_ramadan_count : Rat) / (non_ramadan_days : Rat)
            if non_ramadan_rate > 0 then ramadan_rate / non_ramadan_rate else ramadan_rate
          else ramadan_rate
        else if ramadan_count > 0 then 10 else 0
      let first_activity := listMinD (sessions.map (·.event_timestamp)) 0
      let days_active := diffDays asOf first_activity + 1
      let total_fridays := days_active.fdiv 7
      let fridays_with_activity :=
        (((sessions.filter fun e => is_friday e.event_timestamp).map
          fun e => dateOf e.event_timestamp).dedup).length
      let total_prayer_opportunities := days_active * 5
      let days_with_prayer_interaction :=
        (((user_events.filter fun e => is_prayer_time (hourOf e.event_timestamp)).map
          fun e => dateOf e.event_timestamp).dedup).length
      { ramadan_engagement_ratio := ratio
        is_ramadan_convert := ramadanConvertOf user_profile
        days_since_ramadan := diffDays asOf RAMADAN_END
        last_10_nights_sessions :=
          (sessions.filter fun e =>
            decide (LAST_10_NIGHTS_START ≤ e.event_timestamp) &&
            decide (e.event_timestamp ≤ RAMADAN_END)).length
        jummah_participation_rate :=
          if total_fridays > 0 then (fridays_with_activity : Rat) / (total_fridays : Rat)
          else 0
        prayer_time_interaction_rate :=
          if total_prayer_opportunities > 0 then
            (days_with_prayer_interaction : Rat) / (days_active : Rat)
          else 0
        eid_participation :=
          if (sessions.filter fun e =>
              decide (EID_START ≤ e.event_timestamp) &&
              decide (e.event_timestamp ≤ EID_END)).length > 0 then 1 else 0
        muharram_participation :=
          if (sessions.filter fun e =>
              decide (MUHARRAM_START ≤ e.event_timestamp) &&
              decide (e.event_timestamp ≤ MUHARRAM_END)).length > 0 then 1 else 0 }

/-! ## Content calculator

Embeds calculate_content_features (src/src/features/content_features.py
lines 12-104).  Note that, unlike the engagement and Islamic-calendar
calculators, the source function takes no as-of date and applies no timestamp
filter: it reads every event of the user (content_features.py line 27).
The bookmark simulation (lines 97-100) draws from np.random.exponential;
the draw is modelled by the oracle argument bookmarkDraw, applied to the
event total that sets the scale of the distribution. -/

/-- The ten content features. -/
structure ContentFeatures where
  quran_reading_pct : Rat
  hadith_engagement_pct : Rat
  lecture_watch_minutes : Rat
  fiqh_content_views : Nat
  seerah_content_views : Nat
  tafsir_engagement : Nat
  topic_diversity_score : Rat
  favorite_content_type : String
  content_completion_rate : Rat
  bookmark_count : Nat
deriving Repr, DecidableEq

/-- Initial feature values (content_features.py lines 30-41). -/
def contentDefaults : ContentFeatures :=
  { quran_reading_pct := 0
    hadith_engagement_pct := 0
    lecture_watch_minutes := 0
    fiqh_content_views := 0
    seerah_content_views := 0
    tafsir_engagement := 0
    topic_diversity_score := 0
    favorite_content_type := "none"
    content_completion_rate := 0
    bookmark_count := 0 }

/-- Result of Series.mode()[0]: pandas mode returns the sorted list of the
values that attain the maximal count, so index 0 is the lexicographically
smallest most-common value (content_features.py lines 87-88). -/
def modeEventType (l : List Event) : Option String :=
  let types := (l.map (·.event_type)).dedup
  let maxCount := (types.map fun t => (l.filter fun e => e.event_type == t).length).foldl max 0
  (List.insertionSort (· ≤ ·)
    (types.filter fun t => (l.filter fun e => e.event_type == t).length == maxCount)).head?

/-- Embedding of calculate_content_features
(src/src/features/content_features.py lines 12-104). -/
def calculate_content_features (events : EventsTable) (uid : String)
    (bookmarkDraw : Nat → Nat) : ContentFeatures :=
  let user_events := events.rows.filter fun e => e.user_id == uid
  if user_events.isEmpty then contentDefaults
  else
    let content_events := user_events.filter fun e => !(e.event_type == "app_open")
    if content_events.isEmpty then contentDefaults
    else
      let total_events := content_events.length
      let quran_events := content_events.filter fun e => e.event_type == "quran_read"
      let hadith_events := content_events.filter fun e => e.event_type == "hadith_read"
      let lecture_events := content_events.filter fun e => e.event_type == "lecture_view"
      let fiqh_events := content_events.filter fun e => e.event_type == "fiqh_content"
      let seerah_events := content_events.filter fun e => e.event_type == "seerah_read"
      let tafsir_events := content_events.filter fun e =>
        e.event_type == "tafsir_read" || e.content_category == some "Tafsir"
      let long_sessions := content_events.filter fun e =>
        decide (e.session_duration_seconds > 300)
      { quran_reading_pct := (quran_events.length : Rat) / (total_events : Rat)
        hadith_engagement_pct := (hadith_events.length : Rat) / (total_events : Rat)
        lecture_watch_minutes :=
          sumRat (lecture_events.map fun e => e.session_duration_seconds) / 60
        fiqh_content_views := fiqh_events.length
        seerah_content_views := seerah_events.length
        tafsir_engagement := tafsir_events.length
        topic_diversity_score := (((content_events.map (·.event_type)).dedup).length : Rat)
        favorite_content_type :=
          if total_events > 0 then (modeEventType content_events).getD "none" else "none"
        content_completion_rate :=
          if total_events > 0 then (long_sessions.length : Rat) / (total_events : Rat) else 0
        bookmark_count :=
          if total_events > 100 then min 100 (bookmarkDraw total_events)
          else if total_events > 20 then bookmarkDraw total_events
          else 0 }

/-! ## Upload validation gate

Embeds DataUploadHandler._validate_columns (src/api/upload_handler.py
lines 87-130).  The uploaded DataFrame is modelled by its three required
columns (cells are Option values, none being a null) together with flags for
which columns are present.  The source collects plain error strings; they are
modelled by an inductive type carrying the same data, classified into the
SchemaError / VolumeError taxonomy of the specification. -/

/-- One row of an uploaded raw table; none models a null cell. -/
structure RawRow where
  user_id : Option String
  event_timestamp : Option String
  event_type : Option String
deriving Repr, DecidableEq

/-- An uploaded DataFrame: column-presence flags plus rows
(a pandas column exists for all rows or for none). -/
structure RawTable where
  hasUserIdCol : Bool
  hasEventTimestampCol : Bool
  hasEventTypeCol : Bool
  hasSessionDurationCol : Bool
  hasDonationAmountCol : Bool
  hasContentCategoryCol : Bool
  rows : List RawRow
deriving Repr, DecidableEq

/-- The validation errors of upload_handler.py lines 97, 103, 110, 114,
118, with the data each message interpolates. -/
inductive VError
  | missingColumns (cols : List String)
  | nullValues (col : String) (count : Nat)
  | invalidTimestamp
  | insufficientData (rows : Nat)
  | insufficientUsers (users : Nat)
deriving Repr, DecidableEq

/-- Modelled from the spec: section 7 classifies insufficient rows/users as
VolumeError; the code itself only appends strings to one error list. -/
def VError.isVolumeError : VError → Bool
  | VError.insufficientData _ => true
  | VError.insufficientUsers _ => true
  | _ => false

/-- Modelled from the spec: section 7 classifies missing or malformed required
columns and null values as SchemaError; the code itself only appends strings
to one error list. -/
def VError.isSchemaError : VError → Bool
  | VError.missingColumns _ => true
  | VError.nullValues _ _ => true
  | VError.invalidTimestamp => true
  | _ => false

/-- REQUIRED_COLUMNS (upload_handler.py line 18). -/
def REQUIRED_COLUMNS : List String := ["user_id", "event_timestamp", "event_type"]

/-- Column-presence test, the Python `col in df.columns`. -/
def RawTable.hasCol (df : RawTable) (c : String) : Bool :=
  if c == "user_id" then df.hasUserIdCol
  else if c == "event_timestamp" then df.hasEventTimestampCol
  else if c == "event_type" then df.hasEventTypeCol
  else if c == "session_duration" then df.hasSessionDurationCol
  else if c == "donation_amount" then df.hasDonationAmountCol
  else if c == "content_category" then df.hasContentCategoryCol
  else false

/-- Count of nulls in a required column, df[col].isnull().sum(). -/
def RawTable.nullCount (df : RawTable) (c : String) : Nat :=
  (df.rows.filter fun r =>
    if c == "user_id" then r.user_id.isNone
    else if c == "event_timestamp" then r.event_timestamp.isNone
    else if c == "event_type" then r.event_type.isNone
    else false).length

/-- Day count from the civil epoch for a Gregorian date
(standard days-from-civil computation with floor division). -/
def daysFromCivil (y m d : Int) : Int :=
  let y2 := if m ≤ 2 then y - 1 else y
  let era := y2.fdiv 400
  let yoe := y2 - era * 400
  let mp := (m + 9).emod 12
  let doy := (153 * mp + 2).fdiv 5 + d - 1
  let doe := yoe * 365 + yoe.fdiv 4 - yoe.fdiv 100 + doy
  era * 146097 + doe - 719468

/-- Splitting of a character list at the dash separator
(the List-of-Char form of String.splitOn "-"). -/
def splitDash : List Char → List (List Char)
  | [] => [[]]
  | c :: cs =>
    let r := splitDash cs
    if c = '-' then [] :: r
    else
      match r with
      | [] => [[c]]
      | g :: gs => (c :: g) :: gs

/-- Decimal value of a nonempty digit string, none on any non-digit. -/
def digitsVal : List Char → Nat → Option Nat
  | [], acc => some acc
  | c :: rest, acc =>
    if '0' ≤ c ∧ c ≤ '9' then digitsVal rest (acc * 10 + (c.toNat - '0'.toNat))
    else none

/-- Natural number denoted by a digit string, none when empty or malformed. -/
def digitsToNat : List Char → Option Nat
  | [] => none
  | cs => digitsVal cs 0

/-- Modelled from the spec: pd.to_datetime is an external parser (the event
timestamp column is "ISO-8601 or parseable date", spec section 6); it is
modelled on ISO YYYY-MM-DD date strings, everything else failing to parse. -/
def parseDate (s : String) : Option Int :=
  match splitDash s.data with
  | [ys, ms, ds] =>
    match digitsToNat ys, digitsToNat ms, digitsToNat ds with
    | some y, some m, some d =>
      if 1 ≤ m ∧ m ≤ 12 ∧ 1 ≤ d ∧ d ≤ 31 then
        some (daysFromCivil (y : Int) (m : Int) (d : Int) * secondsPerDay)
      else none
    | _, _, _ => none
  | _ => none

/-- The validation dictionary returned by _validate_columns
(upload_handler.py lines 126-130).  Warnings are kept as the list of missing
optional column names that the single warning string of line 124 reports. -/
structure ValidationReport where
  is_valid : Bool
  errors : List VError
  warnings : List String
deriving Repr, DecidableEq

/-- Embedding of DataUploadHandler._validate_columns
(src/api/upload_handler.py lines 87-130).  Errors are accumulated in source
order: missing required columns, nulls per required column, timestamp
parsing, row volume, user volume.  pd.to_datetime on a column raises exactly
when some non-null cell is unparseable (line 108); the source also writes the
parsed column back into the frame, which the report does not record. -/
def validate_columns (df : RawTable) : ValidationReport :=
  let missing := REQUIRED_COLUMNS.filter fun c => !(df.hasCol c)
  let errs1 : List VError :=
    if missing.isEmpty then [] else [VError.missingColumns missing]
  let errs2 : List VError := REQUIRED_COLUMNS.filterMap fun c =>
    if df.hasCol c && decide (df.nullCount c > 0) then
      some (VError.nullValues c (df.nullCount c))
    else none
  let errs3 : List VError :=
    if df.hasEventTimestampCol &&
        df.rows.any (fun r =>
          match r.event_timestamp with
          | some s => (parseDate s).isNone
          | none => false) then
      [VError.invalidTimestamp]
    else []
  let errs4 : List VError :=
    if df.rows.length < 100 then [VError.insufficientData df.rows.length] else []
  let unique_users :=
    if df.hasUserIdCol then ((df.rows.filterMap (·.user_id)).dedup).length else 0
  let errs5 : List VError :=
    if unique_users < 10 then [VError.insufficientUsers unique_users] else []
  let errors := errs1 ++ errs2 ++ errs3 ++ errs4 ++ errs5
  { is_valid := errors.isEmpty
    errors := errors
    warnings :=
      ["session_duration", "donation_amount", "content_category"].filter
        fun c => !(df.hasCol c) }

/-! ## Auto feature engineer (upload path)

Embeds AutoFeatureEngineer (src/api/feature_pipeline.py).  The uploaded
table's event_timestamp column may hold raw strings before the conversion
performed inside engineer_features; TsVal captures the two states of that
column.  Because line 38 of feature_pipeline.py assigns the converted column
back into the caller's DataFrame, engineer_features is embedded as a function
that returns both its result and the caller-visible table after the call. -/

/-- State of a cell of the event_timestamp column: a raw string before
conversion, or a parsed datetime. -/
inductive TsVal
  | raw (s : String)
  | dt (t : Int)
deriving Repr, DecidableEq

/-- Conversion of one timestamp cell by pd.to_datetime: already-parsed values
pass through, strings must parse. -/
def pdToDatetime : TsVal → Option Int
  | TsVal.raw s => parseDate s
  | TsVal.dt t => some t

/-- Numeric value of a parsed timestamp cell.  Only applied after the
conversion step, where every cell is a TsVal.dt. -/
def TsVal.toInt : TsVal → Int
  | TsVal.raw _ => 0
  | TsVal.dt t => t

/-- One row of an uploaded event table on the feature path (feature_pipeline.py
documents user_id, event_timestamp, event_type plus the optional
session_duration and donation_amount columns). -/
structure URow where
  user_id : String
  event_timestamp : TsVal
  event_type : String
  session_duration : Option Rat
  donation_amount : Option Rat
deriving Repr, DecidableEq

/-- An uploaded event table: presence of the optional columns plus rows. -/
structure UploadTable where
  hasSessionDurationCol : Bool
  hasDonationAmountCol : Bool
  rows : List URow
deriving Repr, DecidableEq

/-- Check whether the first list starts with the second. -/
def startsWithChars : List Char → List Char → Bool
  | _, [] => true
  | [], _ :: _ => false
  | h :: hs, p :: ps => h == p && startsWithChars hs ps

/-- Check whether the second list occurs inside the first. -/
def containsChars : List Char → List Char → Bool
  | [], pat => pat.isEmpty
  | h :: hs, pat => startsWithChars (h :: hs) pat || containsChars hs pat

/-- Case-insensitive substring test on a lowercase pattern,
Series.str.contains(pat, case=False). -/
def strContainsLower (s pat : String) : Bool :=
  containsChars (s.data.map Char.toLower) pat.data

/-- The features computed by AutoFeatureEngineer._calculate_user_features
(feature_pipeline.py lines 62-148).  avg_session_duration and
activity_variance use Option, none standing for the NaN that pandas mean/std
produce on empty data; activity_variance stores the sample variance (the
square of the source's std, ddof = 1) because square roots leave the
rationals. -/
structure AutoFeatures where
  total_events : Nat
  days_since_last_activity : Int
  events_last_7d : Nat
  events_last_30d : Nat
  days_since_signup : Int
  avg_session_duration : Option Rat
  unique_event_types : Nat
  prayer_count : Nat
  days_since_last_prayer : Int
  quran_count : Nat
  days_since_last_quran : Int
  donation_count : Nat
  total_donation_amount : Rat
  days_since_last_donation : Int
  activity_variance : Option Rat
  ramadan_activity : Nat
deriving Repr, DecidableEq

/-- Embedding of AutoFeatureEngineer._calculate_user_features
(src/api/feature_pipeline.py lines 62-148), for one user's (already
converted and as-of filtered) events. -/
def auto_user_features (hasSD hasDA : Bool) (user_events0 : List URow) (asOf : Int) :
    AutoFeatures :=
  let user_events := List.insertionSort
    (fun a b => a.event_timestamp.toInt ≤ b.event_timestamp.toInt) user_events0
  let ts := user_events.map fun r => r.event_timestamp.toInt
  let last_event := listMaxD ts 0
  let week_ago := asOf - 7 * secondsPerDay
  let month_ago := asOf - 30 * secondsPerDay
  let signup_date := listMinD ts 0
  let durations := user_events.filterMap (·.session_duration)
  let prayer_events := user_events.filter fun r =>
    strContainsLower r.event_type "prayer" || strContainsLower r.event_type "salah"
  let quran_events := user_events.filter fun r => strContainsLower r.event_type "quran"
  let donations := user_events.filter fun r => r.donation_amount.isSome
  let diffs : List Rat :=
    (ts.zip ts.tail).map fun p => ((p.2 - p.1 : Int) : Rat) / 86400
  let diffMean : Rat := sumRat diffs / (diffs.length : Rat)
  let ramadan_events := user_events.filter fun r =>
    decide (RAMADAN_START ≤ r.event_timestamp.toInt) &&
    decide (r.event_timestamp.toInt ≤ RAMADAN_END)
  { total_events := user_events.length
    days_since_last_activity := diffDays asOf last_event
    events_last_7d :=
      (user_events.filter fun r => decide (week_ago ≤ r.event_timestamp.toInt)).length
    events_last_30d :=
      (user_events.filter fun r => decide (month_ago ≤ r.event_timestamp.toInt)).length
    days_since_signup := diffDays asOf signup_date
    avg_session_duration :=
      if hasSD then
        if durations.length > 0 then
          some (sumRat durations / (durations.length : Rat) / 60)
        else none
      else some 0
    unique_event_types := ((user_events.map (·.event_type)).dedup).length
    prayer_count := prayer_events.length
    days_since_last_prayer :=
      if prayer_events.length > 0 then
        diffDays asOf (listMaxD (prayer_events.map fun r => r.event_timestamp.toInt) 0)
      else 999
    quran_count := quran_events.length
    days_since_last_quran :=
      if quran_events.length > 0 then
        diffDays asOf (listMaxD (quran_events.map fun r => r.event_timestamp.toInt) 0)
      else 999
    donation_count := if hasDA then donations.length else 0
    total_donation_amount :=
      if hasDA then
        if donations.length > 0 then sumRat (donations.filterMap (·.donation_amount)) else 0
      else 0
    days_since_last_donation :=
      if hasDA then
        if donations.length > 0 then
          diffDays asOf (listMaxD (donations.map fun r => r.event_timestamp.toInt) 0)
        else 999
      else 999
    activity_variance :=
      if user_events.length > 1 then
        if diffs.length ≥ 2 then
          some (sumRat (diffs.map fun x => (x - diffMean) ^ 2) / ((diffs.length : Rat) - 1))
        else none
      else some 0
    ramadan_activity := ramadan_events.length }

/-- Column-wise pd.to_datetime (feature_pipeline.py line 38): every cell is
converted in order; the conversion raises (returns none) as soon as any cell
fails to parse. -/
def convertTimestampColumn : List URow → Option (List URow)
  | [] => some []
  | r :: rest =>
    match pdToDatetime r.event_timestamp, convertTimestampColumn rest with
    | some t, some rest2 => some ({ r with event_timestamp := TsVal.dt t } :: rest2)
    | _, _ => none

/-- Embedding of AutoFeatureEngineer.engineer_features
(src/api/feature_pipeline.py lines 15-60).  The second component of the
result is the caller's DataFrame after the call: line 38 converts the
event_timestamp column in place on the caller's frame before line 41 rebinds
the local name to a filtered copy, so the caller observes the converted (but
unfiltered) table.  If pd.to_datetime raises (some cell unparseable) the
first component is none and the table is left untouched. -/
def engineer_features (df : UploadTable) (asOf : Int) :
    Option (List (String × AutoFeatures)) × UploadTable :=
  match convertTimestampColumn df.rows with
  | none => (none, df)
  | some convertedRows =>
    let dfConverted : UploadTable := { df with rows := convertedRows }
    let filtered := convertedRows.filter fun r => decide (r.event_timestamp.toInt ≤ asOf)
    let all_users := uniqueFirst (filtered.map (·.user_id))
    (some (all_users.map fun uid =>
      (uid, auto_user_features df.hasSessionDurationCol df.hasDonationAmountCol
        (filtered.filter fun r => r.user_id == uid) asOf)),
     dfConverted)

/-! ## Feature assembly pipeline

Embeds engineer_all_features (src/src/features/feature_engineering.py
lines 57-186).  The CSV loading of lines 78-85 is replaced by taking the
loaded event and profile tables as arguments; everything from line 88 on is
embedded.  The np.random draws of calculate_social_features (seeded per user,
lines 30-47) and of the content bookmark simulation are supplied as oracle
arguments, as the specification directs for the simulated features. -/

/-- The four social features (feature_engineering.py lines 49-54). -/
structure SocialFeatures where
  friends_count : Nat
  shares_sent : Nat
  comments_made : Nat
  days_since_last_social : Nat
deriving Repr, DecidableEq

/-- Embedding of calculate_social_features (feature_engineering.py
lines 18-54).  The oracle returns the four raw np.random draws for a user;
the branch structure, caps (min 500 / 200 / 300) and the randint range
min(31, total_events + 1) are the source's. -/
def calculate_social_features (rand : String → Nat → Nat × Nat × Nat × Nat)
    (uid : String) (total_events : Nat) : SocialFeatures :=
  let d := rand uid total_events
  let raw :=
    if total_events > 100 then (d.1, d.2.1, d.2.2.1)
    else if total_events > 20 then (d.1, d.2.1, d.2.2.1)
    else (0, 0, 0)
  { friends_count := min 500 raw.1
    shares_sent := min 200 raw.2.1
    comments_made := min 300 raw.2.2
    days_since_last_social := d.2.2.2 % min 31 (total_events + 1) }

/-- Left join on a string key, pandas merge(on=key, how='left'): every left
row is kept in order; each match on the right produces one output row, and a
left row with no match produces a single row joined with none. -/
def leftMerge (l : List α) (r : List β) (ka : α → String) (kb : β → String)
    (join : α → Option β → γ) : List γ :=
  l.flatMap fun a =>
    match r.filter fun b => kb b == ka a with
    | [] => [join a none]
    | bs => bs.map fun b => join a (some b)

/-- One row of the merged feature frame of feature_engineering.py
lines 126-141: engagement columns, left-joined islamic/content/social
columns (none when the join found no row), the left-joined profile columns,
and the days_since_signup column that line 139 recomputes (overwriting the
engagement column of the same name; none is the NaT-derived NaN of a missing
profile). -/
structure AssembledRow where
  user_id : String
  eng : EngagementFeatures
  isl : Option IslamicFeatures
  cont : Option ContentFeatures
  soc : Option SocialFeatures
  prof : Option Profile
  days_since_signup : Option Int
deriving Repr, DecidableEq

/-- The merge phase of engineer_all_features (feature_engineering.py
lines 87-141): per-user calculator outputs over the profile master list,
then the chain of left merges on user_id, then days_since_signup. -/
def assembledRows (events : EventsTable) (profiles : List Profile) (asOf : Int)
    (socialRand : String → Nat → Nat × Nat × Nat × Nat) (bookmarkDraw : Nat → Nat) :
    List AssembledRow :=
  let all_users := profiles.map (·.user_id)
  let engagement := all_users.map fun uid =>
    (uid, calculate_engagement_features events uid asOf)
  let islamic := all_users.map fun uid =>
    (uid, calculate_islamic_features events profiles uid asOf)
  let content := all_users.map fun uid =>
    (uid, calculate_content_features events uid bookmarkDraw)
  let social := all_users.map fun uid =>
    (uid, calculate_social_features socialRand uid
      ((events.rows.filter fun e => e.user_id == uid).length))
  let m0 : List AssembledRow := engagement.map fun p =>
    { user_id := p.1, eng := p.2, isl := none, cont := none, soc := none,
      prof := none, days_since_signup := none }
  let m1 := leftMerge m0 islamic (fun a : AssembledRow => a.user_id)
    (fun b : String × IslamicFeatures => b.1) fun a b => { a with isl := b.map (·.2) }
  let m2 := leftMerge m1 content (fun a : AssembledRow => a.user_id)
    (fun b : String × ContentFeatures => b.1) fun a b => { a with cont := b.map (·.2) }
  let m3 := leftMerge m2 social (fun a : AssembledRow => a.user_id)
    (fun b : String × SocialFeatures => b.1) fun a b => { a with soc := b.map (·.2) }
  let m4 := leftMerge m3 profiles (fun a : AssembledRow => a.user_id)
    (fun p : Profile => p.user_id) fun a b => { a with prof := b }
  m4.map fun a =>
    { a with days_since_signup := a.prof.map fun p => diffDays asOf p.signup_date }

/-- One row of the final feature table: the user id plus all numeric values
(after one-hot encoding, dropping the categorical source columns and filling
the remaining NaN with 0; feature_engineering.py lines 144-176). -/
structure EncodedRow where
  user_id : String
  values : List Rat
deriving Repr, DecidableEq

/-- One-hot encoding of a single cell against the observed category list
(pd.get_dummies produces one indicator column per observed category, in
sorted order; a NaN cell yields 0 in every indicator column). -/
def oneHot (cats : List String) (v : Option String) : List Rat :=
  cats.map fun c => if v == some c then 1 else 0

/-- Zero-filled social record used when the left join found no social row
(the fillna(0) of feature_engineering.py line 176). -/
def socialZero : SocialFeatures :=
  { friends_count := 0, shares_sent := 0, comments_made := 0, days_since_last_social := 0 }

/-- The numeric (non-categorical) columns of one merged row after line 139 of
feature_engineering.py, with the fillna(0) of line 176 applied to the
columns a failed left join left as NaN.  The engagement days_since_signup
column was overwritten by the recomputed one (line 139). -/
def numericValues (r : AssembledRow) : List Rat :=
  let isl := r.isl.getD islamicDefaults
  let cont := r.cont.getD contentDefaults
  let soc := r.soc.getD socialZero
  [ (r.eng.days_since_last_session : Rat), (r.eng.session_frequency_7d : Rat),
    (r.eng.session_frequency_30d : Rat), r.eng.avg_session_duration,
    (r.eng.total_sessions : Rat), (r.eng.streak_current : Rat),
    (r.eng.streak_longest : Rat), r.eng.sessions_per_week,
    r.eng.weekend_activity_ratio,
    (if r.isl.isSome then isl.ramadan_engagement_ratio else 0),
    (if r.isl.isSome then (isl.is_ramadan_convert : Rat) else 0),
    (if r.isl.isSome then (isl.days_since_ramadan : Rat) else 0),
    (if r.isl.isSome then (isl.last_10_nights_sessions : Rat) else 0),
    (if r.isl.isSome then isl.jummah_participation_rate else 0),
    (if r.isl.isSome then isl.prayer_time_interaction_rate else 0),
    (if r.isl.isSome then (isl.eid_participation : Rat) else 0),
    (if r.isl.isSome then (isl.muharram_participation : Rat) else 0),
    (if r.cont.isSome then cont.quran_reading_pct else 0),
    (if r.cont.isSome then cont.hadith_engagement_pct else 0),
    (if r.cont.isSome then cont.lecture_watch_minutes else 0),
    (if r.cont.isSome then (cont.fiqh_content_views : Rat) else 0),
    (if r.cont.isSome then (cont.seerah_content_views : Rat) else 0),
    (if r.cont.isSome then (cont.tafsir_engagement : Rat) else 0),
    (if r.cont.isSome then cont.topic_diversity_score else 0),
    (if r.cont.isSome then cont.content_completion_rate else 0),
    (if r.cont.isSome then (cont.bookmark_count : Rat) else 0),
    (if r.soc.isSome then (soc.friends_count : Rat) else 0),
    (if r.soc.isSome then (soc.shares_sent : Rat) else 0),
    (if r.soc.isSome then (soc.comments_made : Rat) else 0),
    (if r.soc.isSome then (soc.days_since_last_social : Rat) else 0),
    (match r.prof with | some p => if p.is_churned then 1 else 0 | none => 0),
    ((r.days_since_signup.getD 0 : Int) : Rat) ]

/-- The encoding phase of engineer_all_features (feature_engineering.py
lines 144-176): one-hot encode favorite_content_type, subscription_type and
location against their observed categories, concatenate columns (row count
unchanged), drop the categorical source columns and signup_date, and fill
remaining NaN with 0. -/
def encodeAssembled (rows : List AssembledRow) : List EncodedRow :=
  let contentCats := List.insertionSort (· ≤ ·)
    ((rows.filterMap fun r => r.cont.map (·.favorite_content_type)).dedup)
  let subCats := List.insertionSort (· ≤ ·)
    ((rows.filterMap fun r => r.prof.map (·.subscription_type)).dedup)
  let locCats := List.insertionSort (· ≤ ·)
    ((rows.filterMap fun r => r.prof.map (·.location)).dedup)
  rows.map fun r =>
    { user_id := r.user_id
      values := numericValues r
        ++ oneHot contentCats (r.cont.map (·.favorite_content_type))
        ++ oneHot subCats (r.prof.map (·.subscription_type))
        ++ oneHot locCats (r.prof.map (·.location)) }

/-- Embedding of engineer_all_features (src/src/features/feature_engineering.py
lines 57-186), with the CSV loading replaced by the table arguments and the
np.random draws by oracles. -/
def engineer_all_features (events : EventsTable) (profiles : List Profile) (asOf : Int)
    (socialRand : String → Nat → Nat × Nat × Nat × Nat) (bookmarkDraw : Nat → Nat) :
    List EncodedRow :=
  encodeAssembled (assembledRows events profiles asOf socialRand bookmarkDraw)

/-! ## Lemmas and claim theorems -/

/-- Concrete event table of the spec's example scenario: app_open at day 0,
quran_read at day 0, app_open at day 5 for one user. -/
def exampleScenarioTable : EventsTable :=
  { rows :=
      [ { user_id := "u1", event_timestamp := 0, event_type := "app_open",
          session_duration_seconds := 0, content_category := none }
      , { user_id := "u1", event_timestamp := 0, event_type := "quran_read",
          session_duration_seconds := 0, content_category := none }
      , { user_id := "u1", event_timestamp := 5 * 86400, event_type := "app_open",
          session_duration_seconds := 0, content_category := none } ]
    hasSignupDateCol := false }

/-- C4: on the example scenario (events app_open at day 0, quran_read at
day 0, app_open at day 5; as-of day 10), calculate_engagement_features
returns days_since_last_session = 5, total_sessions = 2, streak_current = 0
and streak_longest = 1. -/
theorem engagement_example_scenario :
    (calculate_engagement_features exampleScenarioTable "u1" (10 * 86400)).days_since_last_session = 5 ∧
    (calculate_engagement_features exampleScenarioTable "u1" (10 * 86400)).total_sessions = 2 ∧
    (calculate_engagement_features exampleScenarioTable "u1" (10 * 86400)).streak_current = 0 ∧
    (calculate_engagement_features exampleScenarioTable "u1" (10 * 86400)).streak_longest = 1 := by
  decide

/-- C2: a user with zero events at or before the as-of cutoff receives
exactly the documented default engagement features, and the computation is
total (no error). -/
theorem engagement_zero_events_defaults (df : EventsTable) (uid : String) (asOf : Int)
    (h : userEventsAsOf df uid asOf = []) :
    (calculate_engagement_features df uid asOf).days_since_last_session = 180 ∧
    (calculate_engagement_features df uid asOf).session_frequency_7d = 0 ∧
    (calculate_engagement_features df uid asOf).session_frequency_30d = 0 ∧
    (calculate_engagement_features df uid asOf).avg_session_duration = 0 ∧
    (calculate_engagement_features df uid asOf).total_sessions = 0 ∧
    (calculate_engagement_features df uid asOf).streak_current = 0 ∧
    (calculate_engagement_features df uid asOf).streak_longest = 0 ∧
    (calculate_engagement_features df uid asOf).sessions_per_week = 0 ∧
    (calculate_engagement_features df uid asOf).weekend_activity_ratio = 0 := by
  simp [calculate_engagement_features, h, engagementDefaults]

/-- Witness for C2 at a concrete empty table. -/
theorem engagement_zero_events_defaults_witness :
    (calculate_engagement_features { rows := [], hasSignupDateCol := false } "u1" 0).days_since_last_session = 180 ∧
    (calculate_engagement_features { rows := [], hasSignupDateCol := false } "u1" 0).session_frequency_7d = 0 ∧
    (calculate_engagement_features { rows := [], hasSignupDateCol := false } "u1" 0).session_frequency_30d = 0 ∧
    (calculate_engagement_features { rows := [], hasSignupDateCol := false } "u1" 0).avg_session_duration = 0 ∧
    (calculate_engagement_features { rows := [], hasSignupDateCol := false } "u1" 0).total_sessions = 0 ∧
    (calculate_engagement_features { rows := [], hasSignupDateCol := false } "u1" 0).streak_current = 0 ∧
    (calculate_engagement_features { rows := [], hasSignupDateCol := false } "u1" 0).streak_longest = 0 ∧
    (calculate_engagement_features { rows := [], hasSignupDateCol := false } "u1" 0).sessions_per_week = 0 ∧
    (calculate_engagement_features { rows := [], hasSignupDateCol := false } "u1" 0).weekend_activity_ratio = 0 :=
  engagement_zero_events_defaults _ _ _ rfl

/-- Event table with one quran_read at day 0 for user u1. -/
def leakTableA : EventsTable :=
  { rows :=
      [ { user_id := "u1", event_timestamp := 0, event_type := "quran_read",
          session_duration_seconds := 0, content_category := none } ]
    hasSignupDateCol := false }

/-- Same table with one extra hadith_read at day 20, which lies after the
as-of cutoff of day 10 used in the point-in-time comparison. -/
def leakTableB : EventsTable :=
  { rows :=
      [ { user_id := "u1", event_timestamp := 0, event_type := "quran_read",
          session_duration_seconds := 0, content_category := none }
      , { user_id := "u1", event_timestamp := 20 * 86400, event_type := "hadith_read",
          session_duration_seconds := 0, content_category := none } ]
    hasSignupDateCol := false }

/-- C1: refuted for the content calculator.  The two tables agree on every
event of user u1 at or before the day-10 cutoff (third conjunct), yet
calculate_content_features, which takes no cutoff and filters nothing by
timestamp, returns quran_reading_pct 1 on one and 1/2 on the other, for
every value of the bookmark randomness oracle.  This is the point-in-time
leakage bug the specification forbids. -/
theorem content_calculator_reads_past_cutoff :
    (∀ bookmarkDraw : Nat → Nat,
      (calculate_content_features leakTableA "u1" bookmarkDraw).quran_reading_pct = 1) ∧
    (∀ bookmarkDraw : Nat → Nat,
      (calculate_content_features leakTableB "u1" bookmarkDraw).quran_reading_pct = 1 / 2) ∧
    userEventsAsOf leakTableA "u1" (10 * 86400) = userEventsAsOf leakTableB "u1" (10 * 86400) := by
  refine ⟨fun r => ?_, fun r => ?_, by decide⟩
  · simp [calculate_content_features, leakTableA]
  · simp [calculate_content_features, leakTableB]

/-- Partition of the session list by the Ramadan window: the in-window and
out-of-window filters of islamic_calendar_features.py lines 105-112 cover
every session exactly once. -/
theorem ramadan_partition (l : List Event) :
    (l.filter fun e => decide (RAMADAN_START ≤ e.event_timestamp) &&
        decide (e.event_timestamp ≤ RAMADAN_END)).length +
    (l.filter fun e => decide (e.event_timestamp < RAMADAN_START) ||
        decide (RAMADAN_END < e.event_timestamp)).length = l.length := by
  induction l with
  | nil => rfl
  | cons e t ih =>
    simp only [List.filter_cons]
    by_cases h1 : RAMADAN_START ≤ e.event_timestamp
    · by_cases h2 : e.event_timestamp ≤ RAMADAN_END
      · simp [h1, h2, not_lt.2 h1, not_lt.2 h2]
        omega
      · simp [h1, h2, not_lt.2 h1, not_le.1 h2]
        omega
    · simp [h1, not_le.1 h1]
      omega

/-- C10: the two degenerate branches of calculate_islamic_features return
different defaults.  With zero events at or before the cutoff,
days_since_ramadan is the day distance from the fixed Ramadan end to the
as-of date and is_ramadan_convert is computed from the profile signup date;
with events but no app_open session, the function instead returns
days_since_ramadan = 0 and is_ramadan_convert = 0, ignoring the profile. -/
theorem islamic_edge_cases_differ (events : EventsTable) (profiles : List Profile)
    (uid : String) (asOf : Int) :
    (userEventsAsOf events uid asOf = [] →
      (calculate_islamic_features events profiles uid asOf).days_since_ramadan =
          diffDays asOf RAMADAN_END ∧
      (calculate_islamic_features events profiles uid asOf).is_ramadan_convert =
          ramadanConvertOf (userProfile profiles uid)) ∧
    (userEventsAsOf events uid asOf ≠ [] →
      sessionEvents (userEventsAsOf events uid asOf) = [] →
      (calculate_islamic_features events profiles uid asOf).days_since_ramadan = 0 ∧
      (calculate_islamic_features events profiles uid asOf).is_ramadan_convert = 0) := by
  constructor
  · intro h
    simp [calculate_islamic_features, h, islamicDefaults]
  · intro h1 h2
    simp [calculate_islamic_features, h1, h2, islamicDefaults]

/-- Event table whose single event is not an app_open, for the second branch
of C10. -/
def noSessionTable : EventsTable :=
  { rows :=
      [ { user_id := "u1", event_timestamp := 0, event_type := "quran_read",
          session_duration_seconds := 0, content_category := none } ]
    hasSignupDateCol := false }

/-- Witness for C10: both degenerate branches instantiated at concrete
inputs. -/
theorem islamic_edge_cases_differ_witness :
    ((calculate_islamic_features { rows := [], hasSignupDateCol := false } [] "u1"
        (19832 * 86400)).days_since_ramadan = diffDays (19832 * 86400) RAMADAN_END ∧
     (calculate_islamic_features { rows := [], hasSignupDateCol := false } [] "u1"
        (19832 * 86400)).is_ramadan_convert = ramadanConvertOf (userProfile [] "u1")) ∧
    ((calculate_islamic_features noSessionTable [] "u1" 0).days_since_ramadan = 0 ∧
     (calculate_islamic_features noSessionTable [] "u1" 0).is_ramadan_convert = 0) :=
  ⟨(islamic_edge_cases_differ _ [] "u1" (19832 * 86400)).1 rfl,
   (islamic_edge_cases_differ noSessionTable [] "u1" 0).2 (by decide) (by decide)⟩

/-- C6: the ramadan_engagement_ratio division guard.  Whenever the
out-of-window session count is zero and the in-window count positive the
feature is the fixed finite sentinel 10; whenever both counts are zero the
feature is 0. -/
theorem ramadan_ratio_division_guard (events : EventsTable) (profiles : List Profile)
    (uid : String) (asOf : Int) :
    (((sessionEvents (userEventsAsOf events uid asOf)).filter fun e =>
        decide (e.event_timestamp < RAMADAN_START) ||
        decide (RAMADAN_END < e.event_timestamp)).length = 0 →
      0 < ((sessionEvents (userEventsAsOf events uid asOf)).filter fun e =>
        decide (RAMADAN_START ≤ e.event_timestamp) &&
        decide (e.event_timestamp ≤ RAMADAN_END)).length →
      (calculate_islamic_features events profiles uid asOf).ramadan_engagement_ratio = 10) ∧
    (((sessionEvents (userEventsAsOf events uid asOf)).filter fun e =>
        decide (RAMADAN_START ≤ e.event_timestamp) &&
        decide (e.event_timestamp ≤ RAMADAN_END)).length = 0 →
      ((sessionEvents (userEventsAsOf events uid asOf)).filter fun e =>
        decide (e.event_timestamp < RAMADAN_START) ||
        decide (RAMADAN_END < e.event_timestamp)).length = 0 →
      (calculate_islamic_features events profiles uid asOf).ramadan_engagement_ratio = 0) := by
  constructor
  · intro hnon hram
    have hne : sessionEvents (userEventsAsOf events uid asOf) ≠ [] := by
      intro h
      rw [h] at hram
      simp at hram
    have hue : userEventsAsOf events uid asOf ≠ [] := by
      intro h
      apply hne
      rw [h]
      rfl
    simp [calculate_islamic_features, hue, hne, hnon, hram]
  · intro hram hnon
    by_cases h : userEventsAsOf events uid asOf = []
    · simp [calculate_islamic_features, h, islamicDefaults]
    · have hse : sessionEvents (userEventsAsOf events uid asOf) = [] := by
        have hp := ramadan_partition (sessionEvents (userEventsAsOf events uid asOf))
        rw [hram, hnon] at hp
        exact List.length_eq_zero.1 hp.symm
      simp [calculate_islamic_features, h, hse, islamicDefaults]

/-- Event table with a single app_open inside the Ramadan window. -/
def ramadanOnlyTable : EventsTable :=
  { rows :=
      [ { user_id := "u1", event_timestamp := 19793 * 86400, event_type := "app_open",
          session_duration_seconds := 0, content_category := none } ]
    hasSignupDateCol := false }

/-- Witness for C6: a user active only during Ramadan receives the sentinel
10, and a user with no sessions at all receives 0. -/
theorem ramadan_ratio_division_guard_witness :
    (calculate_islamic_features ramadanOnlyTable [] "u1" (19832 * 86400)).ramadan_engagement_ratio = 10 ∧
    (calculate_islamic_features { rows := [], hasSignupDateCol := false } [] "u1"
        (19832 * 86400)).ramadan_engagement_ratio = 0 :=
  ⟨(ramadan_ratio_division_guard ramadanOnlyTable [] "u1" (19832 * 86400)).1
      (by decide) (by decide),
   (ramadan_ratio_division_guard { rows := [], hasSignupDateCol := false } [] "u1"
      (19832 * 86400)).2 (by decide) (by decide)⟩

/-- Event table without a signup_date column whose single event is an
app_open session at day 0. -/
def spwTable : EventsTable :=
  { rows :=
      [ { user_id := "u1", event_timestamp := 0, event_type := "app_open",
          session_duration_seconds := 0, content_category := none } ]
    hasSignupDateCol := false }

/-- Counterexample to C5 as stated: user u1 has one session at or before the
cutoff, yet sessions_per_week is 0 rather than total sessions divided by the
(at least 1) weeks since the first event, because engagement_features.py
line 114 computes the feature only when the events frame carries a
signup_date column, which event tables do not have. -/
theorem sessions_per_week_counterexample :
    (sessionEvents (userEventsAsOf spwTable "u1" 0)).length = 1 ∧
    ¬ ((calculate_engagement_features spwTable "u1" 0).sessions_per_week =
      ((sessionEvents (userEventsAsOf spwTable "u1" 0)).length : Rat) /
        max 1 (((diffDays 0
          (listMinD ((userEventsAsOf spwTable "u1" 0).map (·.event_timestamp)) 0) + 1 : Int) : Rat) / 7)) := by
  have h0 : (calculate_engagement_features spwTable "u1" 0).sessions_per_week = 0 := by decide
  have h3 : diffDays 0 (listMinD ((userEventsAsOf spwTable "u1" 0).map (·.event_timestamp)) 0) = 0 := by
    decide
  have h4 : (sessionEvents (userEventsAsOf spwTable "u1" 0)).length = 1 := by decide
  refine ⟨h4, ?_⟩
  rw [h0, h3, h4]
  rw [max_eq_left (by norm_num : ((0 + 1 : Int) : Rat) / 7 ≤ 1)]
  norm_num

/-- C5 amended: provided the events table carries a signup_date column (the
guard of engagement_features.py line 114), a user with at least one session
at or before the cutoff receives sessions_per_week equal to the total
session count divided by the number of weeks since the user's first event,
the number of weeks being at least 1. -/
theorem sessions_per_week_formula (df : EventsTable) (uid : String) (asOf : Int)
    (hcol : df.hasSignupDateCol = true)
    (hne : sessionEvents (userEventsAsOf df uid asOf) ≠ []) :
    (calculate_engagement_features df uid asOf).sessions_per_week =
      ((sessionEvents (userEventsAsOf df uid asOf)).length : Rat) /
        max 1 (((diffDays asOf
          (listMinD ((userEventsAsOf df uid asOf).map (·.event_timestamp)) 0) + 1 : Int) : Rat) / 7) := by
  have hue : userEventsAsOf df uid asOf ≠ [] := by
    intro h
    apply hne
    rw [h]
    rfl
  have hlen : 0 < (userEventsAsOf df uid asOf).length := List.length_pos.2 hue
  simp [calculate_engagement_features, hue, hne, hcol, hlen]

/-- The same single-session table, but with a signup_date column present. -/
def spwTableWithCol : EventsTable :=
  { rows :=
      [ { user_id := "u1", event_timestamp := 0, event_type := "app_open",
          session_duration_seconds := 0, content_category := none } ]
    hasSignupDateCol := true }

/-- Witness for the amended C5 at a concrete table with the signup_date
column present. -/
theorem sessions_per_week_formula_witness :
    (calculate_engagement_features spwTableWithCol "u1" 0).sessions_per_week =
      ((sessionEvents (userEventsAsOf spwTableWithCol "u1" 0)).length : Rat) /
        max 1 (((diffDays 0
          (listMinD ((userEventsAsOf spwTableWithCol "u1" 0).map (·.event_timestamp)) 0) + 1 : Int) : Rat) / 7) :=
  sessions_per_week_formula spwTableWithCol "u1" 0 rfl (by decide)

/-- String names u0 to u9 for building concrete tables. -/
def uidOf (n : Nat) : String :=
  ["u0", "u1", "u2", "u3", "u4", "u5", "u6", "u7", "u8", "u9"].getD n "u0"

/-- Concrete upload table with 100 rows, 10 distinct users, and the required
columns present and non-null. -/
def goodUploadTable : RawTable :=
  { hasUserIdCol := true
    hasEventTimestampCol := true
    hasEventTypeCol := true
    hasSessionDurationCol := false
    hasDonationAmountCol := false
    hasContentCategoryCol := false
    rows := (List.range 100).map fun i =>
      { user_id := some (uidOf (i % 10))
        event_timestamp := some "2024-01-01"
        event_type := some "app_open" } }

/-- Projections of the validation report record coincide by construction. -/
theorem validate_is_valid_eq (df : RawTable) :
    (validate_columns df).is_valid = (validate_columns df).errors.isEmpty := rfl

set_option maxRecDepth 10000 in
/-- C7: the upload validation gate rejects any 99-row table with the
insufficient-data VolumeError (and is then invalid), accepts a concrete
table with 100 rows, 10 distinct users and non-null required columns, and
rejects any table missing the event_type column with a SchemaError whose
payload names that column. -/
theorem upload_validation_gate :
    (∀ df : RawTable, df.rows.length = 99 →
      VError.insufficientData 99 ∈ (validate_columns df).errors ∧
      (VError.insufficientData 99).isVolumeError = true ∧
      (validate_columns df).is_valid = false) ∧
    (validate_columns goodUploadTable).is_valid = true ∧
    (∀ df : RawTable, df.hasEventTypeCol = false →
      ∃ ms, VError.missingColumns ms ∈ (validate_columns df).errors ∧
        (VError.missingColumns ms).isSchemaError = true ∧
        "event_type" ∈ ms) := by
  refine ⟨?_, by decide, ?_⟩
  · intro df h
    have hmem : VError.insufficientData 99 ∈ (validate_columns df).errors := by
      simp [validate_columns, h]
    refine ⟨hmem, rfl, ?_⟩
    rw [validate_is_valid_eq]
    exact List.isEmpty_eq_false.2 (List.ne_nil_of_mem hmem)
  · intro df h
    refine ⟨REQUIRED_COLUMNS.filter (fun c => !(df.hasCol c)), ?_, rfl, ?_⟩
    · have hne : "event_type" ∈ REQUIRED_COLUMNS.filter (fun c => !(df.hasCol c)) := by
        simp [REQUIRED_COLUMNS, RawTable.hasCol, h]
      simp [validate_columns, List.isEmpty_eq_false.2 (List.ne_nil_of_mem hne)]
    · simp [REQUIRED_COLUMNS, RawTable.hasCol, h]

/-- Concrete upload table with only 99 rows. -/
def shortUploadTable : RawTable :=
  { goodUploadTable with rows := (List.range 99).map fun i =>
      { user_id := some (uidOf (i % 10))
        event_timestamp := some "2024-01-01"
        event_type := some "app_open" } }

/-- Concrete upload table lacking the event_type column. -/
def noTypeColUploadTable : RawTable :=
  { hasUserIdCol := true
    hasEventTimestampCol := true
    hasEventTypeCol := false
    hasSessionDurationCol := false
    hasDonationAmountCol := false
    hasContentCategoryCol := false
    rows := [] }

/-- Witness for C7: the universally quantified rejection parts instantiated
at concrete tables. -/
theorem upload_validation_gate_witness :
    (VError.insufficientData 99 ∈ (validate_columns shortUploadTable).errors ∧
      (VError.insufficientData 99).isVolumeError = true ∧
      (validate_columns shortUploadTable).is_valid = false) ∧
    (∃ ms, VError.missingColumns ms ∈ (validate_columns noTypeColUploadTable).errors ∧
      (VError.missingColumns ms).isSchemaError = true ∧
      "event_type" ∈ ms) :=
  ⟨upload_validation_gate.1 shortUploadTable (by decide),
   upload_validation_gate.2.2 noTypeColUploadTable rfl⟩

/-- Upload table whose timestamp column still holds a raw string. -/
def mutUploadTable : UploadTable :=
  { hasSessionDurationCol := false
    hasDonationAmountCol := false
    rows := [ { user_id := "u1", event_timestamp := TsVal.raw "2024-01-05",
                event_type := "app_open", session_duration := none,
                donation_amount := none } ] }

/-- Counterexample to C8 as stated: running
AutoFeatureEngineer.engineer_features on a table whose event_timestamp
column holds strings leaves the caller with a different table — line 38 of
feature_pipeline.py assigns the pd.to_datetime conversion back into the
caller's DataFrame before copying. -/
theorem auto_engineer_mutates_input :
    (engineer_features mutUploadTable (19727 * 86400)).2 ≠ mutUploadTable := by decide

/-- Converting a column whose cells are already datetimes is the identity. -/
theorem convert_dt_id (l : List URow) (h : ∀ r ∈ l, ∃ t, r.event_timestamp = TsVal.dt t) :
    convertTimestampColumn l = some l := by
  induction l with
  | nil => rfl
  | cons r rest ih =>
    obtain ⟨t, ht⟩ := h r (by simp)
    have hr2 : { r with event_timestamp := TsVal.dt t } = r := by
      cases r
      simp_all
    rw [convertTimestampColumn, ht, ih (fun x hx => h x (by simp [hx]))]
    simp [pdToDatetime, hr2]

/-- C8 amended: the batch calculators operate on copies and leave their
input unchanged, but AutoFeatureEngineer.engineer_features coerces the
event_timestamp column of its input table to datetime in place.  Precisely:
if the column conversion raises, the caller's table is unchanged; if it
succeeds, the caller's table afterwards is the input with the converted
column (and nothing else changed); in particular a table whose timestamps
are already datetimes is returned unchanged. -/
theorem auto_engineer_table_effect (df : UploadTable) (asOf : Int) :
    (convertTimestampColumn df.rows = none →
      (engineer_features df asOf).2 = df) ∧
    (∀ rows2, convertTimestampColumn df.rows = some rows2 →
      (engineer_features df asOf).2 = { df with rows := rows2 }) ∧
    ((∀ r ∈ df.rows, ∃ t, r.event_timestamp = TsVal.dt t) →
      (engineer_features df asOf).2 = df) := by
  refine ⟨?_, ?_, ?_⟩
  · intro h
    simp [engineer_features, h]
  · intro rows2 h
    simp [engineer_features, h]
  · intro h
    have hm := convert_dt_id df.rows h
    simp [engineer_features, hm]

/-- Upload table whose timestamp column is already datetime. -/
def dtUploadTable : UploadTable :=
  { hasSessionDurationCol := false
    hasDonationAmountCol := false
    rows := [ { user_id := "u1", event_timestamp := TsVal.dt 0,
                event_type := "app_open", session_duration := none,
                donation_amount := none } ] }

/-- Witness for the amended C8: the string-timestamp table comes back with
the parsed column, and the already-datetime table comes back unchanged. -/
theorem auto_engineer_table_effect_witness :
    (engineer_features mutUploadTable (19727 * 86400)).2 =
      { mutUploadTable with
          rows := [ { user_id := "u1", event_timestamp := TsVal.dt (19727 * 86400),
                      event_type := "app_open", session_duration := none,
                      donation_amount := none } ] } ∧
    (engineer_features dtUploadTable 0).2 = dtUploadTable :=
  ⟨(auto_engineer_table_effect mutUploadTable (19727 * 86400)).2.1 _ (by decide),
   (auto_engineer_table_effect dtUploadTable 0).2.2 (by
      intro r hr
      simp [dtUploadTable] at hr
      exact ⟨0, by rw [hr]⟩)⟩

/-- A key that is duplicate-free on the right side of a merge matches at
most one right row. -/
theorem length_filter_key_le_one {β : Type _} (r : List β) (kb : β → String) (k : String)
    (h : (r.map kb).Nodup) : (r.filter fun b => kb b == k).length ≤ 1 := by
  induction r with
  | nil => simp
  | cons b bs ih =>
    simp only [List.map_cons, List.nodup_cons] at h
    obtain ⟨hnotin, hnd⟩ := h
    by_cases hb : kb b == k
    · have hz : (bs.filter fun x => kb x == k) = [] := by
        rw [List.filter_eq_nil_iff]
        intro x hx hxk
        apply hnotin
        have h1 : kb x = k := by simpa using hxk
        have h2 : kb b = k := by simpa using hb
        rw [List.mem_map]
        exact ⟨x, hx, by rw [h1, h2]⟩
      simp [List.filter_cons, hb, hz]
    · simp only [List.filter_cons, hb, if_false]
      exact ih hnd

/-- A left merge whose right side matches every left key at most once keeps
exactly one output row per left row. -/
theorem leftMerge_length {α β γ : Type _} (l : List α) (r : List β) (ka : α → String)
    (kb : β → String) (join : α → Option β → γ)
    (h : ∀ a ∈ l, (r.filter fun b => kb b == ka a).length ≤ 1) :
    (leftMerge l r ka kb join).length = l.length := by
  induction l with
  | nil => rfl
  | cons a l2 ih =>
    have ha := h a (by simp)
    have ih2 := ih fun x hx => h x (by simp [hx])
    rcases hm : r.filter fun b => kb b == ka a with _ | ⟨b, bs⟩
    · simp [leftMerge, hm] at ih2 ⊢
      exact ih2
    · rw [hm] at ha
      have hbs : bs = [] := by
        simp at ha
        exact ha
      subst hbs
      simp [leftMerge, hm] at ih2 ⊢
      exact ih2

/-- C9: the assembled feature table has exactly one row per user of the
profile master list (whose user ids are unique), however many of them have
event data. -/
theorem feature_table_one_row_per_profile (events : EventsTable) (profiles : List Profile)
    (asOf : Int) (socialRand : String → Nat → Nat × Nat × Nat × Nat) (bookmarkDraw : Nat → Nat)
    (h : (profiles.map fun p => p.user_id).Nodup) :
    (engineer_all_features events profiles asOf socialRand bookmarkDraw).length = profiles.length := by
  simp only [engineer_all_features, encodeAssembled, assembledRows, List.length_map]
  rw [leftMerge_length, leftMerge_length, leftMerge_length, leftMerge_length]
  · simp [List.length_map]
  all_goals
    intro a _
    apply length_filter_key_le_one
    simpa [List.map_map, Function.comp] using h

/-- Two profiles with distinct user ids. -/
def twoProfiles : List Profile :=
  [ { user_id := "u1", signup_date := 0, subscription_type := "free",
      location := "US", is_churned := false }
  , { user_id := "u2", signup_date := 0, subscription_type := "premium",
      location := "UK", is_churned := true } ]

/-- Witness for C9: two profile entities and no event data still give a
two-row feature table. -/
theorem feature_table_one_row_per_profile_witness :
    (engineer_all_features { rows := [], hasSignupDateCol := false } twoProfiles 0
      (fun _ _ => (0, 0, 0, 0)) (fun _ => 0)).length = twoProfiles.length :=
  feature_table_one_row_per_profile { rows := [], hasSignupDateCol := false } twoProfiles 0
    (fun _ _ => (0, 0, 0, 0)) (fun _ => 0) (by decide)

/-- Every index below the computed current streak corresponds to a date in
the list: the while loop only counts dates it found. -/
theorem currentStreakAux_chain (dates : List Int) :
    ∀ (fuel : Nat) (d : Int) (j : Nat), j < currentStreakAux dates fuel d →
      (d - (j : Int)) ∈ dates := by
  intro fuel
  induction fuel with
  | zero =>
    intro d j hj
    simp [currentStreakAux] at hj
  | succ n ih =>
    intro d j hj
    rw [currentStreakAux] at hj
    by_cases hd : d ∈ dates
    · rw [if_pos hd] at hj
      cases j with
      | zero => simpa using hd
      | succ j2 =>
        have heq : d - ((j2 + 1 : Nat) : Int) = (d - 1) - (j2 : Int) := by
          push_cast
          ring
        rw [heq]
        exact ih (d - 1) j2 (by omega)
    · rw [if_neg hd] at hj
      omega

/-- In a strictly sorted list, a block of consecutive dates following prev
is bounded by the leading-run length. -/
theorem leadRun_lb : ∀ (ds : List Int) (prev : Int) (m : Nat),
    List.Sorted (· < ·) (prev :: ds) →
    (∀ i : Nat, i < m → (prev + 1 + (i : Int)) ∈ ds) → m ≤ leadRun prev ds := by
  intro ds
  induction ds with
  | nil =>
    intro prev m _ hmem
    cases m with
    | zero => simp
    | succ m2 => exact absurd (hmem 0 (by omega)) (by simp)
  | cons e t ih =>
    intro prev m hs hmem
    cases m with
    | zero => simp
    | succ m2 =>
      rw [List.sorted_cons] at hs
      obtain ⟨hlt, hs2⟩ := hs
      have hpe : prev < e := hlt e (by simp)
      have h0 : prev + 1 + ((0 : Nat) : Int) ∈ e :: t := hmem 0 (by omega)
      have he : e = prev + 1 := by
        rcases List.mem_cons.1 h0 with h1 | h1
        · omega
        · have := (List.sorted_cons.1 hs2).1 _ h1
          omega
      rw [leadRun, if_pos (by omega : e - prev = 1)]
      have hrec : m2 ≤ leadRun e t := by
        apply ih e m2 hs2
        intro i hi
        have hm3 := hmem (i + 1) (by omega)
        rcases List.mem_cons.1 hm3 with h2 | h2
        · exfalso
          push_cast at h2
          omega
        · have heq : prev + 1 + ((i + 1 : Nat) : Int) = e + 1 + (i : Int) := by
            push_cast
            omega
          rwa [heq] at h2
      omega

/-- A run of consecutive dates inside a strictly sorted list that reaches
down to the head is bounded by one plus the head's leading run. -/
theorem chain_min (prev : Int) (ds : List Int)
    (hs : List.Sorted (· < ·) (prev :: ds)) (d : Int) (k : Nat)
    (hc : ∀ j : Nat, j < k → (d - (j : Int)) ∈ prev :: ds)
    (hp : ∃ j : Nat, j < k ∧ d - (j : Int) = prev) :
    k ≤ 1 + leadRun prev ds := by
  obtain ⟨j0, hj0k, hj0⟩ := hp
  rw [List.sorted_cons] at hs
  obtain ⟨hlt, hs2⟩ := hs
  have hge : ∀ j : Nat, j < k → prev ≤ d - (j : Int) := by
    intro j hj
    rcases List.mem_cons.1 (hc j hj) with h1 | h1
    · omega
    · have := hlt _ h1
      omega
  have hj0max : ∀ j : Nat, j < k → j ≤ j0 := by
    intro j hj
    by_contra hgt
    push_neg at hgt
    have := hge j hj
    omega
  have hk1 : j0 = k - 1 := by
    have := hj0max (k - 1) (by omega)
    omega
  have hlb : k - 1 ≤ leadRun prev ds := by
    apply leadRun_lb ds prev (k - 1) (List.sorted_cons.2 ⟨hlt, hs2⟩)
    intro i hi
    have hj : k - 2 - i < k := by omega
    have hm := hc (k - 2 - i) hj
    have heq : d - ((k - 2 - i : Nat) : Int) = prev + 1 + (i : Int) := by
      omega
    rw [heq] at hm
    rcases List.mem_cons.1 hm with h1 | h1
    · omega
    · exact h1
  omega

/-- Invariant of the longest-streak loop: the result dominates the best so
far, the running streak extended by the leading run, and the length of every
run of consecutive dates contained in the remaining list. -/
theorem longestStreakAux_bound : ∀ (ds : List Int) (prev : Int) (temp longest : Nat),
    List.Sorted (· < ·) (prev :: ds) → 1 ≤ temp →
    (longest ≤ longestStreakAux prev temp longest ds ∧
     temp + leadRun prev ds ≤ longestStreakAux prev temp longest ds ∧
     ∀ (d : Int) (k : Nat), (∀ j : Nat, j < k → (d - (j : Int)) ∈ prev :: ds) →
       k ≤ longestStreakAux prev temp longest ds) := by
  intro ds
  induction ds with
  | nil =>
    intro prev temp longest hs ht
    refine ⟨?_, ?_, ?_⟩
    · simp only [longestStreakAux]
      omega
    · simp only [longestStreakAux, leadRun]
      omega
    · intro d k hc
      have hk1 : k ≤ 1 := by
        by_contra h2
        push_neg at h2
        have h0 := hc 0 (by omega)
        have h1 := hc 1 (by omega)
        simp at h0 h1
        omega
      simp only [longestStreakAux]
      omega
  | cons e t ih =>
    intro prev temp longest hs ht
    have hs2 : List.Sorted (· < ·) (e :: t) := (List.sorted_cons.1 hs).2
    have hpe : prev < e := (List.sorted_cons.1 hs).1 e (by simp)
    by_cases hcons : e - prev = 1
    · have R := ih e (temp + 1) longest hs2 (by omega)
      have hlr : leadRun prev (e :: t) = leadRun e t + 1 := by
        simp [leadRun, hcons]
      refine ⟨?_, ?_, ?_⟩
      · rw [longestStreakAux, if_pos hcons]
        exact R.1
      · rw [longestStreakAux, if_pos hcons, hlr]
        have := R.2.1
        omega
      · intro d k hc
        rw [longestStreakAux, if_pos hcons]
        by_cases hp : ∃ j : Nat, j < k ∧ d - (j : Int) = prev
        · have hb := chain_min prev (e :: t) hs d k hc hp
          rw [hlr] at hb
          have := R.2.1
          omega
        · apply R.2.2 d k
          intro j hj
          rcases List.mem_cons.1 (hc j hj) with h1 | h1
          · exact absurd ⟨j, hj, h1⟩ hp
          · exact h1
    · have R := ih e 1 (max longest temp) hs2 (by omega)
      have hlr : leadRun prev (e :: t) = 0 := by
        simp [leadRun, hcons]
      have hmaxle := R.1
      have hle1 : longest ≤ max longest temp := le_max_left _ _
      have hle2 : temp ≤ max longest temp := le_max_right _ _
      refine ⟨?_, ?_, ?_⟩
      · rw [longestStreakAux, if_neg hcons]
        omega
      · rw [longestStreakAux, if_neg hcons, hlr]
        omega
      · intro d k hc
        rw [longestStreakAux, if_neg hcons]
        by_cases hp : ∃ j : Nat, j < k ∧ d - (j : Int) = prev
        · have hb := chain_min prev (e :: t) hs d k hc hp
          rw [hlr] at hb
          omega
        · apply R.2.2 d k
          intro j hj
          rcases List.mem_cons.1 (hc j hj) with h1 | h1
          · exact absurd ⟨j, hj, h1⟩ hp
          · exact h1

/-- The longest streak dominates every run of consecutive dates contained in
a strictly sorted date list. -/
theorem chain_le_longestStreak (dates : List Int) (hs : List.Sorted (· < ·) dates)
    (d : Int) (k : Nat) (hc : ∀ j : Nat, j < k → (d - (j : Int)) ∈ dates) :
    k ≤ longestStreak dates := by
  cases dates with
  | nil =>
    cases k with
    | zero => simp
    | succ k2 => exact absurd (hc 0 (by omega)) (by simp)
  | cons p ds =>
    have R := longestStreakAux_bound ds p 1 0 hs (le_refl 1)
    by_cases hp : ∃ j : Nat, j < k ∧ d - (j : Int) = p
    · have hb := chain_min p ds hs d k hc hp
      have := R.2.1
      rw [longestStreak]
      omega
    · rw [longestStreak]
      apply R.2.2 d k
      intro j hj
      exact hc j hj

/-- The backward-counted current streak is one such consecutive run, hence
bounded by the longest streak. -/
theorem currentStreak_le_longestStreak (dates : List Int)
    (hs : List.Sorted (· < ·) dates) (d : Int) :
    currentStreak dates d ≤ longestStreak dates :=
  chain_le_longestStreak dates hs d _
    (fun j hj => currentStreakAux_chain dates dates.length d j hj)

/-- The sorted unique date list is strictly sorted. -/
theorem uniqueSortedDates_sorted (l : List Event) :
    List.Sorted (· < ·) (uniqueSortedDates l) := by
  have h1 : List.Sorted (· ≤ ·) (uniqueSortedDates l) :=
    List.sorted_insertionSort _ _
  have h2 : (uniqueSortedDates l).Nodup := by
    rw [uniqueSortedDates, List.Perm.nodup_iff (List.perm_insertionSort _ _)]
    exact List.nodup_dedup _
  exact h1.lt_of_le h2

/-- C3: for every user, event table and as-of date, the current streak
returned by calculate_engagement_features never exceeds the longest
streak returned by the same call. -/
theorem streak_current_le_streak_longest (df : EventsTable) (uid : String) (asOf : Int) :
    (calculate_engagement_features df uid asOf).streak_current ≤
      (calculate_engagement_features df uid asOf).streak_longest := by
  rw [calculate_engagement_features]
  by_cases h1 : (userEventsAsOf df uid asOf).isEmpty
  · simp [h1, engagementDefaults]
  · simp only [h1, Bool.false_eq_true, if_false]
    by_cases h2 : (sessionEvents (userEventsAsOf df uid asOf)).isEmpty
    · simp [h2, engagementDefaults]
    · simp only [h2, Bool.false_eq_true, if_false]
      by_cases h3 : (uniqueSortedDates (sessionEvents (userEventsAsOf df uid asOf))).length > 0
      · simp only [h3, if_pos]
        exact currentStreak_le_longestStreak _ (uniqueSortedDates_sorted _) _
      · simp only [h3, if_neg]
        simp
